import Mathlib

/-!
Verification of the Clickability_Checker repository
(src/selenium_clickable_tester.py and src/selenium_clickable_tester_optimized.py).

The Python code is shallowly embedded: dictionaries become structures, the
browser/driver is abstracted into explicit environment values recording the
answers the driver would give at each decision point, Python exceptions become
an explicit exception type threaded through the handlers that the source
installs, and the md5 fingerprint is abstracted as a parameter
(h : String -> String); every equality statement proved about fingerprints
holds for an arbitrary hash function, hence in particular for md5.
-/

namespace Clickability

/-- The element-descriptor dictionary built by _extract_element_info /
_extract_element_info_for_hidden.  Only the fields the verified claims read
are modelled; location/size are collapsed to a string rendering (the source
only ever stringifies them). -/
structure ElementInfo where
  tag_name : String := ""
  text : String := ""
  class_names : String := ""
  id : String := ""
  href : String := ""
  onclick : String := ""
  location : String := ""
  xpath : String := "xpath_unavailable"
  is_displayed : Bool := true
  is_enabled : Bool := true
  is_carousel_element : Bool := false
  detection_method : Option String := none
  unique_id : String := ""
  deriving Repr, DecidableEq

/-- href.replace(" ", "").lower(): replacing every space with the empty
string is dropping every space character, and lower() maps each character to
lowercase.  Implemented on the character list so the kernel can evaluate
it. -/
def strip_spaces_lower (s : String) : String :=
  ⟨(s.data.filter fun c => c != ' ').map Char.toLower⟩

/-- is_dead_click_by_href (selenium_clickable_tester.py lines 996-999,
selenium_clickable_tester_optimized.py lines 1144-1147):
href is defaulted to the empty string, spaces removed, lowercased, and the
result tested for membership in the four-element literal list.  Note that the
single-space list entry follows the space-stripping, exactly as in the
source. -/
def is_dead_click_by_href (element_info : ElementInfo) : Bool :=
  let href := strip_spaces_lower element_info.href
  ["javascript:void(0)", "javascript::void(0)", "#", " "].contains href

/-- The post-click observations read by the classifier: URL and title before
and after the click, and the outcome of the modal/dropdown queries.
overlay_query = none models the find_elements calls throwing (the inner
try/except around the modal check); some (modals, dropdowns) models the two
returned element lists. -/
structure Observation where
  initial_url : String := ""
  current_url : String := ""
  initial_title : String := ""
  current_title : String := ""
  overlay_query : Option (List String × List String) := some ([], [])
  deriving Repr, DecidableEq

/-- The ClickResult dictionary (the fields the claims read). -/
structure ClickResult where
  click_status : String := "unknown"
  error_message : String := ""
  page_changed : Bool := false
  url_before : String := ""
  url_after : String := ""
  new_elements_appeared : Bool := false
  deriving Repr, DecidableEq

/-- The observed-to-terminal classification chain
(selenium_clickable_tester.py lines 1083-1109,
selenium_clickable_tester_optimized.py lines 203-228 and 1214-1238):
dead-by-href first, then URL change, then title change, then the
modal/dropdown presence check (whose query may itself throw, giving
dead_click).  The function applies the branch updates to the result record
being built, as the source mutates its result dict. -/
def classify_observed (element_info : ElementInfo) (obs : Observation)
    (result : ClickResult) : ClickResult :=
  if is_dead_click_by_href element_info then
    { result with click_status := "dead_click",
                  error_message := "Dead click: href is javascript:void(0)" }
  else if obs.current_url != obs.initial_url then
    { result with click_status := "active_navigation", page_changed := true }
  else if obs.current_title != obs.initial_title then
    { result with click_status := "active_title_change", page_changed := true }
  else
    match obs.overlay_query with
    | some (modals, dropdowns) =>
        if !modals.isEmpty || !dropdowns.isEmpty then
          { result with click_status := "active_ui_change", new_elements_appeared := true }
        else
          { result with click_status := "dead_click" }
    | none => { result with click_status := "dead_click" }

/-! ## Element discovery (find_clickable_elements and helpers) -/

/-- A raw DOM element as the discovery sweeps see it: the attribute values the
extraction reads, plus the boolean gates the sweep loops test
(is_displayed/is_enabled, the header/footer exclusion and the
carousel-ancestor exclusion). -/
structure RawElement where
  tag_name : String := ""
  raw_text : String := ""
  class_attr : String := ""
  href_attr : String := ""
  onclick_attr : String := ""
  id_attr : String := ""
  role_attr : String := ""
  location : String := ""
  displayed : Bool := true
  enabled : Bool := true
  in_header_footer : Bool := false
  in_carousel : Bool := false
  deriving Repr, DecidableEq

/-- str.strip(): drop leading and trailing whitespace, on the character
list so the kernel can evaluate it. -/
def py_strip (cs : List Char) : List Char :=
  ((cs.dropWhile Char.isWhitespace).reverse.dropWhile Char.isWhitespace).reverse

/-- element.text.strip()[:100], the text normalization used everywhere. -/
def truncated_text (s : String) : String :=
  ⟨(py_strip s.data).take 100⟩

/-- The deduplication key of _extract_element_info:
tag_name, truncated text, href, class list and id joined with a bar
(tester.py line 914, optimized line 1040). -/
def dedup_key (e : RawElement) : String :=
  e.tag_name ++ "|" ++ truncated_text e.raw_text ++ "|" ++ e.href_attr ++ "|" ++
    e.class_attr ++ "|" ++ e.id_attr

/-- The five-field content the deduplication key is built from. -/
def five_fields (e : RawElement) : String × String × String × String × String :=
  (e.tag_name, truncated_text e.raw_text, e.href_attr, e.class_attr, e.id_attr)

/-- The same five fields read off a produced descriptor. -/
def info_five_fields (d : ElementInfo) : String × String × String × String × String :=
  (d.tag_name, d.text, d.href, d.class_names, d.id)

/-- The descriptor _extract_element_info builds once the key is fresh. -/
def mk_element_info (e : RawElement) (uid : String) : ElementInfo :=
  { tag_name := e.tag_name, text := truncated_text e.raw_text,
    class_names := e.class_attr, id := e.id_attr, href := e.href_attr,
    onclick := e.onclick_attr, location := e.location,
    is_displayed := e.displayed, is_enabled := e.enabled, unique_id := uid }

/-- _extract_element_info (tester.py lines 895-955, optimized lines 1028-1079)
against the seen_elements set, with md5 abstracted as h: hash the dedup key,
return none if already seen, otherwise record the hash and build the
descriptor.  The set is modelled as the list of recorded hashes. -/
def extract_element_info (h : String → String) (seen : List String) (e : RawElement) :
    Option ElementInfo × List String :=
  let uid := h (dedup_key e)
  if uid ∈ seen then (none, seen)
  else (some (mk_element_info e uid), uid :: seen)

/-- Which of the three non-carousel sweeps found a raw element. -/
inductive DetectionMethod where
  | structural
  | pointerCursor
  | eventListener
  deriving Repr, DecidableEq

/-- The gating condition every sweep loop applies before extraction:
is_displayed and is_enabled and not in header/footer and not inside a
processed carousel container. -/
def passes_filters (e : RawElement) : Bool :=
  e.displayed && e.enabled && !e.in_header_footer && !e.in_carousel

/-- One iteration of a sweep loop body over the running state
(accumulated descriptors, the local unique_ids set of the structural loop,
and the instance-level seen_elements set).  The structural loop additionally
consults unique_ids (tester.py lines 558-561, optimized lines 820-823); the
cursor and listener loops only tag the detection method (optimized lines
849-858 and 883-892). -/
def sweep_step (h : String → String)
    (st : List ElementInfo × List String × List String)
    (item : RawElement × DetectionMethod) :
    List ElementInfo × List String × List String :=
  let (acc, uids, seen) := st
  let (e, m) := item
  if passes_filters e then
    match m, extract_element_info h seen e with
    | _, (none, seen') => (acc, uids, seen')
    | .structural, (some info, seen') =>
        if info.unique_id ∈ uids then (acc, uids, seen')
        else (acc ++ [info], info.unique_id :: uids, seen')
    | .pointerCursor, (some info, seen') =>
        (acc ++ [{ info with detection_method := some "pointer_cursor" }], uids, seen')
    | .eventListener, (some info, seen') =>
        (acc ++ [{ info with detection_method := some "event_listener" }], uids, seen')
  else
    st

/-- The three consecutive non-carousel sweeps (structural selectors, then
pointer-cursor, then event-listener) of one discovery pass, modelled as one
fold over the raw elements in the order the source loops visit them, each
tagged with the sweep that produced it.  The seen set is threaded through the
whole pass; the structural unique_ids set starts empty each pass
(tester.py lines 443-617, optimized _find_regular_clickables lines 766-835). -/
def find_regular_clickables (h : String → String)
    (items : List (RawElement × DetectionMethod)) (seen : List String) :
    List ElementInfo × List String :=
  let (acc, _, seen') := items.foldl (sweep_step h) ([], [], seen)
  (acc, seen')

/-- The key of _create_unique_id used for carousel descriptors
(tester.py lines 977-986, optimized lines 1133-1142): tag, id, classes,
text[:50] and the stringified location, joined with a bar. -/
def carousel_key (d : ElementInfo) : String :=
  d.tag_name ++ "|" ++ d.id ++ "|" ++ d.class_names ++ "|" ++
    String.mk (d.text.data.take 50) ++ "|" ++ d.location

/-- _extract_element_info_for_hidden (optimized lines 633-685): builds a
carousel-sourced descriptor unconditionally - it never consults the
seen_elements set - marking is_carousel_element and forcing is_displayed,
with its unique_id drawn from _create_unique_id (hash abstracted as h2). -/
def extract_element_info_for_hidden (h2 : String → String) (e : RawElement) :
    ElementInfo :=
  let info : ElementInfo :=
    { tag_name := e.tag_name, text := truncated_text e.raw_text,
      class_names := e.class_attr, id := e.id_attr, href := e.href_attr,
      onclick := e.onclick_attr, location := e.location,
      is_displayed := true, is_enabled := e.enabled, is_carousel_element := true }
  { info with unique_id := h2 (carousel_key info) }

/-- find_clickable_elements (tester.py lines 389-621, optimized lines
697-728): carousel containers are processed via the slide normalizer into
carousel-sourced descriptors (modelled by the list of slide clickables that
passed the is_enabled gate), the three regular sweeps run against the
threaded seen set, and the carousel descriptors are appended after all
regular ones.  The seen set is the instance attribute seen_elements, so it is
taken as an argument and returned: the source never resets it between
calls. -/
def find_clickable_elements (h h2 : String → String)
    (carousel_raws : List RawElement)
    (items : List (RawElement × DetectionMethod)) (seen : List String) :
    List ElementInfo × List String :=
  let carousel_elements := carousel_raws.map (extract_element_info_for_hidden h2)
  let (clickable_elements, seen') := find_regular_clickables h items seen
  (clickable_elements ++ carousel_elements, seen')

/-! ## Batch partitioning (_divide_elements_into_batches) -/

/-- The per-index batch sizes of _divide_elements_into_batches (optimized
lines 71-90): batch_size = len // k plus one extra for the first
len % k indices. -/
def batch_sizes (n k : Nat) : List Nat :=
  (List.range k).map fun i => n / k + if i < n % k then 1 else 0

/-- Consecutive slicing elements[start:start+size] for a list of sizes. -/
def split_by_sizes {α : Type} : List α → List Nat → List (List α)
  | _, [] => []
  | xs, s :: rest => xs.take s :: split_by_sizes (xs.drop s) rest

/-- _divide_elements_into_batches: slice consecutively by batch_sizes and
keep only non-empty batches (the Python if batch: guard). -/
def divide_elements_into_batches {α : Type} (elements : List α) (num_batches : Nat) :
    List (List α) :=
  (split_by_sizes elements (batch_sizes elements.length num_batches)).filter
    fun b => !b.isEmpty

/-! ## Click testing (test_element_click and the concurrent variants) -/

/-- The Selenium exceptions the sequential classifier distinguishes. -/
inductive SelException where
  | timeoutExc
  | staleExc
  | otherExc (msg : String)
  deriving Repr, DecidableEq

/-- str(e) for the generic except-Exception handler. -/
def exception_str : SelException → String
  | .timeoutExc => "TimeoutException"
  | .staleExc => "StaleElementReferenceException"
  | .otherExc msg => msg

/-- The outcome of the click attempt with its fallback: a direct click that
succeeds, an intercepted click rescued by the script click, or an intercepted
click whose script click also fails. -/
inductive ClickAttempt where
  | success
  | interceptedThenJsSuccess
  | interceptedThenJsFail (msg : String)
  deriving Repr, DecidableEq

/-- The answers the driver gives during one classification attempt: the
initial URL/title, whether the locator finds the element, the
displayed/enabled re-check, the click outcome, the post-click URL/title and
overlay queries, and - when some step throws - the exception reaching the
outer handler (raised = some exc abstracts over which step threw; the claims
only read the status and message the handler then writes). -/
structure ClickEnv where
  initial_url : String := ""
  initial_title : String := ""
  element_found : Bool := true
  displayed : Bool := true
  enabled : Bool := true
  click_attempt : ClickAttempt := .success
  current_url : String := ""
  current_title : String := ""
  overlay_query : Option (List String × List String) := some ([], [])
  raised : Option SelException := none
  deriving Repr, DecidableEq

/-- The straight-line body shared verbatim by test_element_click (tester.py
lines 1022-1109) and _test_element_click_with_driver (optimized lines
154-228): locate or element_not_found; re-check displayed/enabled or
not_clickable; click with script fallback or click_intercepted; then the
observed-state classification. -/
def test_click_core (element_info : ElementInfo) (env : ClickEnv) : ClickResult :=
  let result : ClickResult := { url_before := env.initial_url }
  if !env.element_found then
    { result with click_status := "element_not_found",
                  error_message := "Element could not be located for clicking" }
  else if !(env.displayed && env.enabled) then
    { result with click_status := "not_clickable",
                  error_message := "Element is not displayed or enabled" }
  else
    match env.click_attempt with
    | .interceptedThenJsFail msg =>
        { result with click_status := "click_intercepted",
                      error_message := "Click intercepted: " ++ msg }
    | _ =>
        classify_observed element_info
          { initial_url := env.initial_url, current_url := env.current_url,
            initial_title := env.initial_title, current_title := env.current_title,
            overlay_query := env.overlay_query }
          { result with url_after := env.current_url }

/-- test_element_click (tester.py lines 1001-1121): the outer handlers catch
TimeoutException, then StaleElementReferenceException, then any Exception;
nothing propagates.  Fields written before the exception are abstracted to
their defaults. -/
def test_element_click (element_info : ElementInfo) (env : ClickEnv) : ClickResult :=
  match env.raised with
  | some .timeoutExc =>
      { click_status := "timeout",
        error_message := "Timeout waiting for element or page response" }
  | some .staleExc =>
      { click_status := "stale_element",
        error_message := "Element became stale during test" }
  | some (.otherExc msg) =>
      { click_status := "error", error_message := msg }
  | none => test_click_core element_info env

/-- _test_element_click_with_driver (optimized lines 140-234): the only
outer handler is except Exception, so every exception - timeouts and
staleness included - is recorded as status error with str(e). -/
def test_element_click_with_driver (element_info : ElementInfo) (env : ClickEnv) :
    ClickResult :=
  match env.raised with
  | some exc =>
      { click_status := "error", error_message := exception_str exc }
  | none => test_click_core element_info env

/-- _test_element_batch (optimized lines 92-137): each batch element is
classified via _test_element_click_with_driver; if the per-element wrapper
itself throws (navigation check, page reload, the logging reads), the
except branch appends the batch_error record with url_before and url_after
both set to the target url.  Except String ClickEnv models whether the
wrapper completed (carrying the driver answers) or threw (carrying str(e)). -/
def test_element_batch (batch : List (ElementInfo × Except String ClickEnv))
    (url : String) : List ClickResult :=
  batch.map fun item =>
    match item.2 with
    | .ok env => test_element_click_with_driver item.1 env
    | .error msg =>
        { click_status := "batch_error", error_message := msg,
          url_before := url, url_after := url }

/-- The fixed ten-value classification set named by the specification. -/
def ten_statuses : List String :=
  ["active_navigation", "active_title_change", "active_ui_change", "dead_click",
   "not_clickable", "element_not_found", "click_intercepted", "stale_element",
   "timeout", "error"]

/-! ## Locator strategy (_find_element_by_info) -/

/-- A candidate handle a lookup strategy returns: its live tag name, raw
text, and whether it is currently displayed. -/
structure PageCandidate where
  tag_name : String := ""
  raw_text : String := ""
  displayed : Bool := true
  deriving Repr, DecidableEq

/-- The candidate lists the driver returns for the three find_elements
strategies; Except.error models the strategy call throwing. -/
structure LocatorEnv where
  by_id : Except Unit (List PageCandidate) := .ok []
  by_xpath : Except Unit (List PageCandidate) := .ok []
  by_css : Except Unit (List PageCandidate) := .ok []
  deriving Repr

/-- The strategies list of _find_element_by_info (tester.py lines 1208-1212,
optimized lines 1317-1321): the id lookup when id is non-empty, the xpath
lookup when the stored path is available, the class-derived selector when the
class list is non-empty - none entries stand for the skipped strategies. -/
def locator_strategies (element_info : ElementInfo) (env : LocatorEnv) :
    List (Option (Except Unit (List PageCandidate))) :=
  [if element_info.id != "" then some env.by_id else none,
   if element_info.xpath != "xpath_unavailable" then some env.by_xpath else none,
   if element_info.class_names != "" then some env.by_css else none]

/-- The per-candidate acceptance test of the inner loop (tester.py lines
1218-1221, optimized lines 1327-1330): displayed, same tag name, and the
stripped-truncated text equal to the stored text. -/
def candidate_matches (element_info : ElementInfo) (c : PageCandidate) : Bool :=
  c.displayed && c.tag_name == element_info.tag_name &&
    truncated_text c.raw_text == element_info.text

/-- The strategy loop: skipped entries and throwing strategies fall through
to the next; within a returned candidate list the first accepted candidate is
returned; none when all strategies are exhausted. -/
def locator_loop (element_info : ElementInfo) :
    List (Option (Except Unit (List PageCandidate))) → Option PageCandidate
  | [] => none
  | none :: rest => locator_loop element_info rest
  | some (.error _) :: rest => locator_loop element_info rest
  | some (.ok es) :: rest =>
      match es.find? (candidate_matches element_info) with
      | some e => some e
      | none => locator_loop element_info rest

/-- _find_element_by_info (tester.py lines 1206-1226, optimized lines
1315-1335). -/
def find_element_by_info (element_info : ElementInfo) (env : LocatorEnv) :
    Option PageCandidate :=
  locator_loop element_info (locator_strategies element_info env)

/-- Spec-side restatement of the locator for the refinement proof of the
amended C8, written from the amended claim: try the applicable strategies in
the fixed order id, structural path, class selector; a throwing strategy
contributes nothing; within a returned candidate list accept the first
candidate that is displayed and whose tag name and truncated text exactly
match the descriptor; none once every strategy is exhausted. -/
def locate_spec (element_info : ElementInfo) (env : LocatorEnv) : Option PageCandidate :=
  let attempt : Option (Except Unit (List PageCandidate)) → Option PageCandidate :=
    fun strat =>
      match strat with
      | none => none
      | some (.error _) => none
      | some (.ok es) =>
          es.find? fun c =>
            c.displayed && c.tag_name == element_info.tag_name &&
              truncated_text c.raw_text == element_info.text
  (locator_strategies element_info env).foldr
    (fun s acc => (attempt s).orElse fun _ => acc) none

/-! ## Outcome accounting (run_comprehensive_test and the concurrent run) -/

/-- One counting step of the result loops (tester.py lines 1332-1341,
optimized lines 354-360): active when the status starts with active, dead
when it equals dead_click, error otherwise; the triple is
(active_clicks, dead_clicks, errors). -/
def update_counters (c : Nat × Nat × Nat) (click_status : String) :
    Nat × Nat × Nat :=
  if click_status.startsWith "active" then (c.1 + 1, c.2.1, c.2.2)
  else if click_status == "dead_click" then (c.1, c.2.1 + 1, c.2.2)
  else (c.1, c.2.1, c.2.2 + 1)

/-- The counters after processing a run's statuses in order. -/
def count_outcomes (statuses : List String) : Nat × Nat × Nat :=
  statuses.foldl update_counters (0, 0, 0)

/-- The aggregate result list: the concurrent run extends the list with each
completed batch (optimized line 344); the sequential run is the one-batch
case. -/
def aggregate_results (batch_results : List (List ClickResult)) : List ClickResult :=
  batch_results.flatten

/-- elements_tested: incremented by the batch length as each batch completes
(optimized line 345); the sequential run increments it once per appended
result. -/
def elements_tested (batch_results : List (List ClickResult)) : Nat :=
  (batch_results.map List.length).sum

/-! ## Theorems -/

/-- C1: click classification is decided in strict priority order: an inert
href gives dead_click regardless of any URL change, title change or overlay;
otherwise a URL change gives active_navigation; otherwise a title change
gives active_title_change; otherwise a present modal/dialog/popup/overlay or
expanded dropdown/menu gives active_ui_change; otherwise dead_click. -/
theorem classification_priority (element_info : ElementInfo) (obs : Observation)
    (result : ClickResult) :
    (is_dead_click_by_href element_info = true →
      (classify_observed element_info obs result).click_status = "dead_click") ∧
    (is_dead_click_by_href element_info = false →
      obs.current_url ≠ obs.initial_url →
      (classify_observed element_info obs result).click_status = "active_navigation") ∧
    (is_dead_click_by_href element_info = false →
      obs.current_url = obs.initial_url →
      obs.current_title ≠ obs.initial_title →
      (classify_observed element_info obs result).click_status = "active_title_change") ∧
    (is_dead_click_by_href element_info = false →
      obs.current_url = obs.initial_url →
      obs.current_title = obs.initial_title →
      ∀ modals dropdowns, obs.overlay_query = some (modals, dropdowns) →
        (modals ≠ [] ∨ dropdowns ≠ []) →
        (classify_observed element_info obs result).click_status = "active_ui_change") ∧
    (is_dead_click_by_href element_info = false →
      obs.current_url = obs.initial_url →
      obs.current_title = obs.initial_title →
      (∀ modals dropdowns, obs.overlay_query = some (modals, dropdowns) →
        modals = [] ∧ dropdowns = []) →
      (classify_observed element_info obs result).click_status = "dead_click") := by
  refine ⟨?_, ?_, ?_, ?_, ?_⟩
  · intro hdead
    simp [classify_observed, hdead]
  · intro hdead hurl
    simp [classify_observed, hdead, hurl]
  · intro hdead hurl htitle
    simp [classify_observed, hdead, hurl, htitle]
  · intro hdead hurl htitle modals dropdowns hq hne
    simp only [classify_observed, hdead, Bool.false_eq_true, if_false, hurl, htitle,
      bne_self_eq_false, Bool.false_eq_true, hq]
    rcases hne with hm | hd
    · simp [hm]
    · simp [hd]
  · intro hdead hurl htitle hempty
    simp only [classify_observed, hdead, Bool.false_eq_true, if_false, hurl, htitle,
      bne_self_eq_false]
    cases hq : obs.overlay_query with
    | none => simp
    | some p =>
        obtain ⟨modals, dropdowns⟩ := p
        obtain ⟨hm, hd⟩ := hempty modals dropdowns hq
        simp [hm, hd]

/-- Witness for C1: an element whose href is the bare hash is classified
dead_click even though the URL changed, the title changed and a modal
appeared. -/
theorem classification_priority_witness :
    (classify_observed { href := "#" }
      { initial_url := "http://a", current_url := "http://b",
        initial_title := "t1", current_title := "t2",
        overlay_query := some (["modal"], []) } {}).click_status = "dead_click" :=
  (classification_priority { href := "#" }
    { initial_url := "http://a", current_url := "http://b",
      initial_title := "t1", current_title := "t2",
      overlay_query := some (["modal"], []) } {}).1 (by decide)

/-- C2 (evaluation at the failing input): after replace-space and lowercase,
a single-space href normalizes to the empty string, so the single-space
entry of the membership list can never match and is_dead_click_by_href
returns false for it, while the three reachable literals behave as claimed
and javascript:doSomething() is rejected. -/
theorem dead_click_href_eval :
    is_dead_click_by_href { href := " " } = false ∧
    strip_spaces_lower " " = "" ∧
    is_dead_click_by_href { href := "javascript:void(0)" } = true ∧
    is_dead_click_by_href { href := "JavaScript: Void(0)" } = true ∧
    is_dead_click_by_href { href := "javascript::void(0)" } = true ∧
    is_dead_click_by_href { href := "#" } = true ∧
    is_dead_click_by_href { href := "" } = false ∧
    is_dead_click_by_href { href := "javascript:doSomething()" } = false := by
  decide

/-- C4 (evaluation at the failing input): the seen_elements set persists on
the tester instance across calls to find_clickable_elements (it is never
reset), so running discovery twice against the same unchanged DOM yields a
non-carousel descriptor the first time and none the second time - for every
choice of hash functions. -/
theorem discovery_not_idempotent (h h2 : String → String) :
    (find_clickable_elements h h2 []
      [({ tag_name := "a", raw_text := "Home", class_attr := "menu-item",
          href_attr := "/home", id_attr := "home-link" }, .structural)] []).1.length = 1 ∧
    (find_clickable_elements h h2 []
      [({ tag_name := "a", raw_text := "Home", class_attr := "menu-item",
          href_attr := "/home", id_attr := "home-link" }, .structural)]
      (find_clickable_elements h h2 []
        [({ tag_name := "a", raw_text := "Home", class_attr := "menu-item",
            href_attr := "/home", id_attr := "home-link" }, .structural)] []).2).1.length
      = 0 := by
  simp [find_clickable_elements, find_regular_clickables, sweep_step,
        extract_element_info, passes_filters]

/-- C7 counterexample: in the concurrent per-driver classifier a timeout is
recorded as classification error, not timeout, and a staleness error as
error, not stale_element; the sequential classifier does distinguish them. -/
theorem concurrent_timeout_not_timeout_status :
    (test_element_click_with_driver {} { raised := some .timeoutExc }).click_status
        = "error" ∧
    (test_element_click_with_driver {} { raised := some .timeoutExc }).click_status
        ≠ "timeout" ∧
    (test_element_click_with_driver {} { raised := some .staleExc }).click_status
        = "error" ∧
    (test_element_click_with_driver {} { raised := some .staleExc }).click_status
        ≠ "stale_element" ∧
    (test_element_click {} { raised := some .timeoutExc }).click_status = "timeout" ∧
    (test_element_click {} { raised := some .staleExc }).click_status = "stale_element" := by
  decide

/-- C7 amended: every exception raised while classifying one element is
captured into that element's ClickResult and never propagated.  In the
sequential classifier a timeout yields timeout, a staleness error yields
stale_element and any other exception yields error with its message; in the
concurrent per-driver classifier every exception - timeouts and staleness
included - yields error with the exception's rendering as the message. -/
theorem exceptions_captured_amended (element_info : ElementInfo) (env : ClickEnv)
    (exc : SelException) :
    (test_element_click element_info { env with raised := some exc }).click_status =
      (match exc with
       | .timeoutExc => "timeout"
       | .staleExc => "stale_element"
       | .otherExc _ => "error") ∧
    (∀ msg, (test_element_click element_info
        { env with raised := some (.otherExc msg) }).error_message = msg) ∧
    (test_element_click_with_driver element_info
        { env with raised := some exc }).click_status = "error" ∧
    (test_element_click_with_driver element_info
        { env with raised := some exc }).error_message = exception_str exc := by
  cases exc <;>
    simp [test_element_click, test_element_click_with_driver, exception_str]

/-- The observed-state classifier only ever writes one of its four
statuses. -/
theorem classify_observed_status_cases (element_info : ElementInfo) (obs : Observation)
    (result : ClickResult) :
    (classify_observed element_info obs result).click_status ∈
      ["dead_click", "active_navigation", "active_title_change", "active_ui_change"] := by
  unfold classify_observed
  split
  · simp
  · split
    · simp
    · split
      · simp
      · split
        · split
          · simp
          · simp
        · simp

/-- The shared classifier body only ever writes a status from the fixed
set. -/
theorem test_click_core_status_mem (element_info : ElementInfo) (env : ClickEnv) :
    (test_click_core element_info env).click_status ∈ ten_statuses := by
  have hsub : ∀ s ∈ (["dead_click", "active_navigation", "active_title_change",
      "active_ui_change"] : List String), s ∈ ten_statuses := by decide
  unfold test_click_core
  split
  · simp [ten_statuses]
  · split
    · simp [ten_statuses]
    · split
      · simp [ten_statuses]
      · exact hsub _ (classify_observed_status_cases _ _ _)

/-- The sequential classifier only ever writes a status from the fixed
set. -/
theorem test_element_click_status_mem (element_info : ElementInfo) (env : ClickEnv) :
    (test_element_click element_info env).click_status ∈ ten_statuses := by
  unfold test_element_click
  split
  · simp [ten_statuses]
  · simp [ten_statuses]
  · simp [ten_statuses]
  · exact test_click_core_status_mem _ _

/-- The per-driver classifier only ever writes a status from the fixed
set. -/
theorem test_element_click_with_driver_status_mem (element_info : ElementInfo)
    (env : ClickEnv) :
    (test_element_click_with_driver element_info env).click_status ∈ ten_statuses := by
  unfold test_element_click_with_driver
  split
  · simp [ten_statuses]
  · exact test_click_core_status_mem _ _

/-- C9 counterexample: when the per-element wrapper of a concurrent batch
throws, the appended record carries classification batch_error, which is not
in the fixed ten-value set. -/
theorem batch_error_outside_fixed_set :
    (test_element_batch [({}, Except.error "boom")] "http://x").map
      (fun r => r.click_status) = ["batch_error"] ∧
    "batch_error" ∉ ten_statuses := by
  decide

/-- C9 amended: both classifiers only produce classifications from the fixed
ten-value set, and every result of the concurrent batch path carries a
classification from that set extended with batch_error, which the batch
wrapper writes when its own per-element step throws. -/
theorem statuses_in_fixed_set_amended (element_info : ElementInfo) (env : ClickEnv) :
    (test_element_click element_info env).click_status ∈ ten_statuses ∧
    (test_element_click_with_driver element_info env).click_status ∈ ten_statuses ∧
    (∀ (batch : List (ElementInfo × Except String ClickEnv)) (url : String)
        (r : ClickResult), r ∈ test_element_batch batch url →
      r.click_status ∈ "batch_error" :: ten_statuses) := by
  refine ⟨test_element_click_status_mem _ _,
    test_element_click_with_driver_status_mem _ _, ?_⟩
  intro batch url r hr
  unfold test_element_batch at hr
  obtain ⟨item, hitem, rfl⟩ := List.mem_map.mp hr
  rcases item with ⟨info, envOrErr⟩
  cases envOrErr with
  | ok env' =>
      exact List.mem_cons_of_mem _ (test_element_click_with_driver_status_mem _ _)
  | error msg => simp

/-- Witness for C9 amended: the batch_error record produced by a throwing
wrapper is in the extended status set. -/
theorem statuses_in_fixed_set_amended_witness :
    ({ click_status := "batch_error", error_message := "boom",
       url_before := "http://x", url_after := "http://x" } : ClickResult).click_status ∈
      "batch_error" :: ten_statuses :=
  (statuses_in_fixed_set_amended {} {}).2.2 [({}, Except.error "boom")] "http://x"
    { click_status := "batch_error", error_message := "boom",
      url_before := "http://x", url_after := "http://x" } (by decide)

/-- C8 counterexample: a strategy's first candidate can match the descriptor
by tag name and truncated text and still be rejected because it is not
displayed, so the locator returns none where the claim says the candidate is
accepted. -/
theorem locator_skips_hidden_match :
    (({ tag_name := "a", raw_text := "Click me", displayed := false } :
        PageCandidate).tag_name ==
      ({ tag_name := "a", text := "Click me", id := "the-id" } :
        ElementInfo).tag_name) = true ∧
    (truncated_text ({ tag_name := "a", raw_text := "Click me", displayed := false } :
        PageCandidate).raw_text ==
      ({ tag_name := "a", text := "Click me", id := "the-id" } :
        ElementInfo).text) = true ∧
    find_element_by_info { tag_name := "a", text := "Click me", id := "the-id" }
      { by_id := .ok [{ tag_name := "a", raw_text := "Click me",
                        displayed := false }] } = none := by
  decide

/-- The strategy loop is the first-success fold of the per-strategy
attempts. -/
theorem locator_loop_eq_foldr (element_info : ElementInfo)
    (l : List (Option (Except Unit (List PageCandidate)))) :
    locator_loop element_info l =
      l.foldr
        (fun s acc =>
          (match s with
           | none => none
           | some (.error _) => none
           | some (.ok es) => es.find? (candidate_matches element_info)).orElse
            fun _ => acc)
        none := by
  induction l with
  | nil => rfl
  | cons s rest ih =>
      cases s with
      | none => simpa [locator_loop, Option.orElse] using ih
      | some exc =>
          cases exc with
          | error e => simpa [locator_loop, Option.orElse] using ih
          | ok es =>
              cases hf : es.find? (candidate_matches element_info) with
              | none => simpa [locator_loop, hf, Option.orElse] using ih
              | some c => simp [locator_loop, hf, Option.orElse]

/-- C8 amended: the locator tries identifier lookup, then structural-path
lookup, then the class-derived selector, in that fixed order; within each
strategy's candidate set it accepts the first candidate that is displayed
and whose tag name and truncated text exactly match the descriptor; a
throwing strategy is abandoned in favor of the next; and when all strategies
are exhausted it returns none. -/
theorem locator_strategy_amended (element_info : ElementInfo) (env : LocatorEnv) :
    find_element_by_info element_info env = locate_spec element_info env := by
  unfold find_element_by_info locate_spec
  rw [locator_loop_eq_foldr]
  rfl

/-- Unrolling the counting loop: starting from any counter values, the loop
adds the number of active-prefixed statuses, the number of dead_click
statuses, and the number of all remaining statuses respectively. -/
theorem count_outcomes_go (statuses : List String) (a d e : Nat) :
    statuses.foldl update_counters (a, d, e) =
      (a + statuses.countP (fun s => s.startsWith "active"),
       d + statuses.countP (fun s => !s.startsWith "active" && s == "dead_click"),
       e + statuses.countP (fun s => !s.startsWith "active" && !(s == "dead_click"))) := by
  induction statuses generalizing a d e with
  | nil => simp
  | cons s rest ih =>
      cases h1 : s.startsWith "active" <;> cases h2 : s == "dead_click" <;>
        · simp [List.foldl_cons, update_counters, h1, h2, ih, List.countP_cons,
            Prod.ext_iff]
          omega

/-- The three counting predicates partition any status list. -/
theorem countP_three_sum (l : List String) :
    l.countP (fun s => s.startsWith "active") +
      l.countP (fun s => !s.startsWith "active" && s == "dead_click") +
      l.countP (fun s => !s.startsWith "active" && !(s == "dead_click")) = l.length := by
  induction l with
  | nil => rfl
  | cons s rest ih =>
      cases h1 : s.startsWith "active" <;> cases h2 : s == "dead_click" <;>
        simp [List.countP_cons, h1, h2] <;> omega

/-- C10: after any completed run, sequential or concurrent, each result
increments exactly one of active_clicks (status starting with active),
dead_clicks (status equal to dead_click) or errors (everything else), so the
three counters sum to elements_tested, which equals the length of the
aggregated result list. -/
theorem outcome_accounting (batch_results : List (List ClickResult)) :
    (count_outcomes ((aggregate_results batch_results).map
        (fun r => r.click_status))).1 =
      ((aggregate_results batch_results).map (fun r => r.click_status)).countP
        (fun s => s.startsWith "active") ∧
    (count_outcomes ((aggregate_results batch_results).map
        (fun r => r.click_status))).2.1 =
      ((aggregate_results batch_results).map (fun r => r.click_status)).countP
        (fun s => !s.startsWith "active" && s == "dead_click") ∧
    (count_outcomes ((aggregate_results batch_results).map
        (fun r => r.click_status))).2.2 =
      ((aggregate_results batch_results).map (fun r => r.click_status)).countP
        (fun s => !s.startsWith "active" && !(s == "dead_click")) ∧
    (count_outcomes ((aggregate_results batch_results).map
        (fun r => r.click_status))).1 +
      (count_outcomes ((aggregate_results batch_results).map
        (fun r => r.click_status))).2.1 +
      (count_outcomes ((aggregate_results batch_results).map
        (fun r => r.click_status))).2.2 =
      (aggregate_results batch_results).length ∧
    (aggregate_results batch_results).length = elements_tested batch_results := by
  have hgo := count_outcomes_go
    ((aggregate_results batch_results).map (fun r => r.click_status)) 0 0 0
  have hsum := countP_three_sum
    ((aggregate_results batch_results).map (fun r => r.click_status))
  have hco : count_outcomes ((aggregate_results batch_results).map
      (fun r => r.click_status)) =
      (((aggregate_results batch_results).map (fun r => r.click_status)).countP
        (fun s => s.startsWith "active"),
       ((aggregate_results batch_results).map (fun r => r.click_status)).countP
        (fun s => !s.startsWith "active" && s == "dead_click"),
       ((aggregate_results batch_results).map (fun r => r.click_status)).countP
        (fun s => !s.startsWith "active" && !(s == "dead_click"))) := by
    unfold count_outcomes
    rw [hgo]
    simp
  refine ⟨by rw [hco], by rw [hco], by rw [hco], ?_, ?_⟩
  · rw [hco]
    simpa using hsum
  · simp [aggregate_results, elements_tested]

/-- Summing the per-index sizes over the index range. -/
theorem sum_range_indicator (q r k : Nat) :
    ((List.range k).map fun i => q + if i < r then 1 else 0).sum =
      k * q + min r k := by
  induction k with
  | zero => simp
  | succ k ih =>
      rw [List.range_succ, List.map_append, List.sum_append, ih]
      by_cases hk : k < r <;>
        · simp [hk, Nat.succ_mul]
          omega

/-- The constructed batch sizes always sum to the element count. -/
theorem batch_sizes_sum (n k : Nat) (hk : 0 < k) : (batch_sizes n k).sum = n := by
  unfold batch_sizes
  rw [sum_range_indicator, Nat.min_eq_left (le_of_lt (Nat.mod_lt n hk))]
  exact Nat.div_add_mod n k

/-- When the sizes fit in the list, slicing produces exactly those sizes. -/
theorem split_map_length {α : Type} :
    ∀ (sizes : List Nat) (xs : List α), sizes.sum ≤ xs.length →
      (split_by_sizes xs sizes).map List.length = sizes := by
  intro sizes
  induction sizes with
  | nil => intro xs _; rfl
  | cons s rest ih =>
      intro xs hle
      simp only [List.sum_cons] at hle
      have hs : s ≤ xs.length := le_trans (Nat.le_add_right s rest.sum) hle
      have hrest : rest.sum ≤ (xs.drop s).length := by
        rw [List.length_drop]
        omega
      simp only [split_by_sizes, List.map_cons, List.length_take_of_le hs, ih _ hrest]

/-- When the sizes sum to the whole length, the slices concatenate back to
the original list. -/
theorem split_flatten {α : Type} :
    ∀ (sizes : List Nat) (xs : List α), sizes.sum = xs.length →
      (split_by_sizes xs sizes).flatten = xs := by
  intro sizes
  induction sizes with
  | nil =>
      intro xs h
      simp only [List.sum_nil] at h
      simp [split_by_sizes, (List.length_eq_zero.mp h.symm)]
  | cons s rest ih =>
      intro xs h
      simp only [List.sum_cons] at h
      have hrest : rest.sum = (xs.drop s).length := by
        rw [List.length_drop]
        omega
      simp only [split_by_sizes, List.flatten_cons, ih _ hrest, List.take_append_drop]

/-- Removing empty batches does not change the concatenation. -/
theorem flatten_filter_nonempty {α : Type} :
    ∀ l : List (List α), (l.filter fun b => !b.isEmpty).flatten = l.flatten := by
  intro l
  induction l with
  | nil => rfl
  | cons b rest ih =>
      cases hb : b.isEmpty with
      | true =>
          have : b = [] := List.isEmpty_iff.mp hb
          simp [List.filter_cons, hb, ih, this]
      | false => simp [List.filter_cons, hb, ih]

/-- Slicing distributes over appended size lists. -/
theorem split_by_sizes_append {α : Type} :
    ∀ (a b : List Nat) (xs : List α),
      split_by_sizes xs (a ++ b) =
        split_by_sizes xs a ++ split_by_sizes (xs.drop a.sum) b := by
  intro a
  induction a with
  | nil => intro b xs; rfl
  | cons s rest ih =>
      intro b xs
      simp only [List.cons_append, split_by_sizes, List.append_eq, ih,
        List.sum_cons, List.drop_drop, List.cons_append]

/-- Mapping the size expression over the index range splits into the r
larger sizes followed by the k - r smaller ones. -/
theorem range_indicator_map (q r k : Nat) (h : r ≤ k) :
    (List.range k).map (fun i => q + if i < r then 1 else 0) =
      List.replicate r (q + 1) ++ List.replicate (k - r) q := by
  obtain ⟨m, rfl⟩ := Nat.exists_eq_add_of_le h
  rw [Nat.add_sub_cancel_left, List.range_add, List.map_append, List.map_map]
  congr 1
  · rw [List.eq_replicate_iff]
    refine ⟨by simp, ?_⟩
    intro b hb
    obtain ⟨i, hi, rfl⟩ := List.mem_map.mp hb
    rw [List.mem_range] at hi
    simp [hi]
  · rw [List.eq_replicate_iff]
    refine ⟨by simp, ?_⟩
    intro b hb
    obtain ⟨i, hi, rfl⟩ := List.mem_map.mp hb
    have hlt : ¬ (r + i < r) := by omega
    simp [Function.comp, hlt]

/-- The first n mod k entries of batch_sizes are all the larger size, the
remaining k - n mod k the smaller one. -/
theorem batch_sizes_decompose (n k : Nat) (hk : 0 < k) :
    batch_sizes n k =
      List.replicate (n % k) (n / k + 1) ++
        List.replicate (k - n % k) (n / k) := by
  unfold batch_sizes
  exact range_indicator_map (n / k) (n % k) k (le_of_lt (Nat.mod_lt n hk))

/-- C3: for N elements divided into K > 0 batches, every produced batch has
size floor(N/K) or, when N mod K is non-zero, floor(N/K) + 1 = ceil(N/K);
the first N mod K produced batches carry the larger size; and the produced
batches concatenate back to the original element list (so the sizes sum to N
and no element occurs in two batches). -/
theorem divide_batches_balanced {α : Type} (elements : List α) (k : Nat)
    (hk : 0 < k) :
    (∀ b ∈ divide_elements_into_batches elements k,
      b.length = elements.length / k ∨
        (elements.length % k ≠ 0 ∧ b.length = elements.length / k + 1)) ∧
    ((divide_elements_into_batches elements k).take (elements.length % k)).map
        List.length =
      List.replicate (elements.length % k) (elements.length / k + 1) ∧
    (divide_elements_into_batches elements k).flatten = elements ∧
    ((divide_elements_into_batches elements k).map List.length).sum =
      elements.length := by
  have hsum : (batch_sizes elements.length k).sum = elements.length :=
    batch_sizes_sum elements.length k hk
  have hml : (split_by_sizes elements (batch_sizes elements.length k)).map
      List.length = batch_sizes elements.length k :=
    split_map_length _ _ (le_of_eq hsum)
  have hflat : (divide_elements_into_batches elements k).flatten = elements := by
    unfold divide_elements_into_batches
    rw [flatten_filter_nonempty, split_flatten _ _ hsum]
  refine ⟨?_, ?_, hflat, ?_⟩
  · intro b hb
    have hb2 : b ∈ split_by_sizes elements (batch_sizes elements.length k) :=
      List.mem_of_mem_filter hb
    have hb3 : b.length ∈ batch_sizes elements.length k := by
      rw [← hml]
      exact List.mem_map_of_mem List.length hb2
    unfold batch_sizes at hb3
    obtain ⟨i, hi, hbl⟩ := List.mem_map.mp hb3
    rw [List.mem_range] at hi
    by_cases hir : i < elements.length % k
    · right
      constructor
      · omega
      · rw [← hbl]
        simp [hir]
    · left
      rw [← hbl]
      simp [hir]
  · rcases Nat.eq_zero_or_pos (elements.length % k) with hz | hpos
    · simp [hz]
    · have hr : elements.length % k < k := Nat.mod_lt elements.length hk
      set r := elements.length % k with hrdef
      set q := elements.length / k with hqdef
      have hdec := batch_sizes_decompose elements.length k hk
      set tail := List.replicate (k - r) q with htail
      have hA : split_by_sizes elements (batch_sizes elements.length k) =
          split_by_sizes elements (List.replicate r (q + 1)) ++
            split_by_sizes (elements.drop (List.replicate r (q + 1)).sum) tail := by
        rw [hdec, split_by_sizes_append]
      have hAsum : (List.replicate r (q + 1)).sum ≤ elements.length := by
        have : (List.replicate r (q + 1)).sum + tail.sum = elements.length := by
          have := hsum
          rw [hdec, List.sum_append] at this
          exact this
        omega
      have hAlen : (split_by_sizes elements (List.replicate r (q + 1))).map
          List.length = List.replicate r (q + 1) :=
        split_map_length _ _ hAsum
      have hAcard : (split_by_sizes elements (List.replicate r (q + 1))).length = r := by
        have := congrArg List.length hAlen
        simpa using this
      have hAne : ∀ b ∈ split_by_sizes elements (List.replicate r (q + 1)),
          (!b.isEmpty) = true := by
        intro b hb
        have hbl : b.length ∈ List.replicate r (q + 1) := by
          rw [← hAlen]
          exact List.mem_map_of_mem List.length hb
        have := List.eq_of_mem_replicate hbl
        simp only [Bool.not_eq_true', List.isEmpty_eq_false]
        intro hnil
        rw [hnil] at this
        simp at this
      have hfil : divide_elements_into_batches elements k =
          split_by_sizes elements (List.replicate r (q + 1)) ++
            (split_by_sizes (elements.drop (List.replicate r (q + 1)).sum)
              tail).filter (fun b => !b.isEmpty) := by
        unfold divide_elements_into_batches
        rw [hA, List.filter_append, List.filter_eq_self.mpr hAne]
      rw [hfil, List.take_left' hAcard, hAlen]
  · rw [← List.length_flatten, hflat]

/-- Witness for C3: seven elements into three batches give sizes 3, 2, 2. -/
theorem divide_batches_balanced_witness :
    (∀ b ∈ divide_elements_into_batches [0, 1, 2, 3, 4, 5, 6] 3,
      b.length = ([0, 1, 2, 3, 4, 5, 6] : List Nat).length / 3 ∨
        (([0, 1, 2, 3, 4, 5, 6] : List Nat).length % 3 ≠ 0 ∧
          b.length = ([0, 1, 2, 3, 4, 5, 6] : List Nat).length / 3 + 1)) ∧
    ((divide_elements_into_batches [0, 1, 2, 3, 4, 5, 6] 3).take
        (([0, 1, 2, 3, 4, 5, 6] : List Nat).length % 3)).map List.length =
      List.replicate (([0, 1, 2, 3, 4, 5, 6] : List Nat).length % 3)
        (([0, 1, 2, 3, 4, 5, 6] : List Nat).length / 3 + 1) ∧
    (divide_elements_into_batches [0, 1, 2, 3, 4, 5, 6] 3).flatten =
      [0, 1, 2, 3, 4, 5, 6] ∧
    ((divide_elements_into_batches [0, 1, 2, 3, 4, 5, 6] 3).map List.length).sum =
      ([0, 1, 2, 3, 4, 5, 6] : List Nat).length :=
  divide_batches_balanced [0, 1, 2, 3, 4, 5, 6] 3 (by decide)

/-- The dedup key is computed from exactly the five content fields. -/
theorem dedup_key_eq_of_five_fields (e1 e2 : RawElement)
    (hfive : five_fields e1 = five_fields e2) : dedup_key e1 = dedup_key e2 := by
  unfold five_fields at hfive
  simp only [Prod.mk.injEq] at hfive
  obtain ⟨h1, h2, h3, h4, h5⟩ := hfive
  unfold dedup_key
  rw [h1, h2, h3, h4, h5]

/-- One sweep step leaves the seen set unchanged or pushes the processed
element's fingerprint. -/
theorem sweep_step_seen_cases (h : String → String)
    (st : List ElementInfo × List String × List String)
    (item : RawElement × DetectionMethod) :
    (sweep_step h st item).2.2 = st.2.2 ∨
      (sweep_step h st item).2.2 = h (dedup_key item.1) :: st.2.2 := by
  obtain ⟨acc, uids, seen⟩ := st
  obtain ⟨e, m⟩ := item
  unfold sweep_step extract_element_info
  by_cases hf : passes_filters e
  · by_cases hmem : h (dedup_key e) ∈ seen
    · cases m <;> simp [hf, hmem]
    · cases m <;> simp [hf, hmem] <;> (try (split <;> simp))
  · simp [hf]

/-- The seen set only grows across one sweep step. -/
theorem sweep_step_seen_subset (h : String → String)
    (st : List ElementInfo × List String × List String)
    (item : RawElement × DetectionMethod) :
    st.2.2 ⊆ (sweep_step h st item).2.2 := by
  rcases sweep_step_seen_cases h st item with hc | hc <;> rw [hc]
  · exact fun u hu => hu
  · exact fun u hu => List.mem_cons_of_mem _ hu

/-- The seen set only grows across a whole sweep. -/
theorem foldl_sweep_seen_subset (h : String → String) :
    ∀ (items : List (RawElement × DetectionMethod))
      (st : List ElementInfo × List String × List String),
      st.2.2 ⊆ (items.foldl (sweep_step h) st).2.2 := by
  intro items
  induction items with
  | nil => intro st u hu; exact hu
  | cons item rest ih =>
      intro st u hu
      exact ih (sweep_step h st item) (sweep_step_seen_subset h st item hu)

/-- After a filtered element is processed, its fingerprint is in the seen
set. -/
theorem sweep_step_seen_mem (h : String → String)
    (st : List ElementInfo × List String × List String)
    (e : RawElement) (m : DetectionMethod) (hf : passes_filters e = true) :
    h (dedup_key e) ∈ (sweep_step h st (e, m)).2.2 := by
  obtain ⟨acc, uids, seen⟩ := st
  unfold sweep_step extract_element_info
  by_cases hmem : h (dedup_key e) ∈ seen
  · cases m <;> simp [hf, hmem]
  · cases m <;> simp [hf, hmem] <;> (try (split <;> simp))

/-- A sweep step on an element whose fingerprint is already seen is a
no-op, whatever sweep found it. -/
theorem sweep_step_skip (h : String → String)
    (st : List ElementInfo × List String × List String)
    (e : RawElement) (m : DetectionMethod)
    (hmem : h (dedup_key e) ∈ st.2.2) :
    sweep_step h st (e, m) = st := by
  obtain ⟨acc, uids, seen⟩ := st
  unfold sweep_step extract_element_info
  by_cases hf : passes_filters e
  · cases m <;> simp [hf, hmem]
  · simp [hf]

/-- C5: fingerprinting is deterministic and computed from exactly the five
content fields, for every hash function; and in one discovery pass a raw
element agreeing on those five fields with an earlier processed element
contributes nothing - the descriptor list and the final seen set are the
same as if it were absent - regardless of which sweeps found the two
elements. -/
theorem fingerprint_first_seen_wins (h : String → String) (e1 e2 : RawElement)
    (hfive : five_fields e1 = five_fields e2)
    (hpass : passes_filters e1 = true) :
    dedup_key e1 = dedup_key e2 ∧
    h (dedup_key e1) = h (dedup_key e2) ∧
    ∀ (pre mid post : List (RawElement × DetectionMethod))
      (m1 m2 : DetectionMethod) (seen : List String),
      find_regular_clickables h (pre ++ (e1, m1) :: mid ++ (e2, m2) :: post) seen =
        find_regular_clickables h (pre ++ (e1, m1) :: mid ++ post) seen := by
  have hkey : dedup_key e1 = dedup_key e2 := dedup_key_eq_of_five_fields e1 e2 hfive
  refine ⟨hkey, congrArg h hkey, ?_⟩
  intro pre mid post m1 m2 seen
  unfold find_regular_clickables
  have hfold : ∀ st0 : List ElementInfo × List String × List String,
      List.foldl (sweep_step h) st0 (pre ++ (e1, m1) :: mid ++ (e2, m2) :: post) =
        List.foldl (sweep_step h) st0 (pre ++ (e1, m1) :: mid ++ post) := by
    intro st0
    rw [List.foldl_append, List.foldl_append, List.foldl_cons, List.foldl_cons,
      List.foldl_append, List.foldl_append]
    set st1 := sweep_step h (List.foldl (sweep_step h) st0 pre) (e1, m1) with hst1
    have hm1 : h (dedup_key e1) ∈ st1.2.2 :=
      sweep_step_seen_mem h _ e1 m1 hpass
    have hm2 : h (dedup_key e2) ∈ (List.foldl (sweep_step h) st1 mid).2.2 := by
      rw [← hkey]
      exact foldl_sweep_seen_subset h mid st1 hm1
    rw [List.foldl_cons, sweep_step_skip h _ e2 m2 hm2]
  rw [hfold]

/-- Witness for C5: two raw elements agreeing on the five content fields but
differing in their onclick text, found by the structural and the
event-listener sweeps respectively: the pass with the duplicate present
equals the pass without it. -/
theorem fingerprint_first_seen_wins_witness :
    find_regular_clickables id
      [({ tag_name := "a", raw_text := "More", class_attr := "btn",
          href_attr := "/x", id_attr := "m", onclick_attr := "f()" },
         DetectionMethod.structural),
       ({ tag_name := "a", raw_text := "More", class_attr := "btn",
          href_attr := "/x", id_attr := "m", onclick_attr := "g()" },
         DetectionMethod.eventListener)] [] =
      find_regular_clickables id
        [({ tag_name := "a", raw_text := "More", class_attr := "btn",
            href_attr := "/x", id_attr := "m", onclick_attr := "f()" },
           DetectionMethod.structural)] [] :=
  (fingerprint_first_seen_wins id
    { tag_name := "a", raw_text := "More", class_attr := "btn",
      href_attr := "/x", id_attr := "m", onclick_attr := "f()" }
    { tag_name := "a", raw_text := "More", class_attr := "btn",
      href_attr := "/x", id_attr := "m", onclick_attr := "g()" }
    (by decide) (by decide)).2.2 [] [] [] .structural .eventListener []

/-- The discovery result is the regular descriptors followed by the carousel
descriptors, and the carousel path never reads or writes the seen set. -/
theorem find_clickable_elements_split (h h2 : String → String)
    (carousel_raws : List RawElement)
    (items : List (RawElement × DetectionMethod)) (seen : List String) :
    (find_clickable_elements h h2 carousel_raws items seen).1 =
      (find_regular_clickables h items seen).1 ++
        carousel_raws.map (extract_element_info_for_hidden h2) := by
  unfold find_clickable_elements
  rcases hfr : find_regular_clickables h items seen with ⟨acc, s'⟩
  simp [hfr]

/-- The hidden-element extraction preserves the five content fields. -/
theorem extract_for_hidden_five_fields (h2 : String → String) (e : RawElement) :
    info_five_fields (extract_element_info_for_hidden h2 e) = five_fields e := by
  rfl

/-- C6: carousel-sourced descriptors are never deduplicated against
non-carousel descriptors: every carousel raw element yields a record placed
after all regular descriptors, and when a regular descriptor with the same
five content fields exists the result carries at least two records with that
content. -/
theorem carousel_bypasses_dedup (h h2 : String → String)
    (carousel_raws : List RawElement)
    (items : List (RawElement × DetectionMethod)) (seen : List String)
    (e : RawElement) (he : e ∈ carousel_raws) :
    (find_clickable_elements h h2 carousel_raws items seen).1 =
      (find_regular_clickables h items seen).1 ++
        carousel_raws.map (extract_element_info_for_hidden h2) ∧
    extract_element_info_for_hidden h2 e ∈
      (find_clickable_elements h h2 carousel_raws items seen).1 ∧
    ∀ d ∈ (find_regular_clickables h items seen).1,
      info_five_fields d = five_fields e →
      2 ≤ ((find_clickable_elements h h2 carousel_raws items seen).1.countP
        fun x => decide (info_five_fields x = five_fields e)) := by
  have hsplit := find_clickable_elements_split h h2 carousel_raws items seen
  refine ⟨hsplit, ?_, ?_⟩
  · rw [hsplit]
    exact List.mem_append_right _ (List.mem_map_of_mem _ he)
  · intro d hd hdfive
    rw [hsplit, List.countP_append]
    have hA : 1 ≤ (find_regular_clickables h items seen).1.countP
        (fun x => decide (info_five_fields x = five_fields e)) := by
      rw [Nat.one_le_iff_ne_zero, ← Nat.pos_iff_ne_zero, List.countP_pos]
      exact ⟨d, hd, by simp [hdfive]⟩
    have hB : 1 ≤ (carousel_raws.map (extract_element_info_for_hidden h2)).countP
        (fun x => decide (info_five_fields x = five_fields e)) := by
      rw [Nat.one_le_iff_ne_zero, ← Nat.pos_iff_ne_zero, List.countP_pos]
      exact ⟨extract_element_info_for_hidden h2 e, List.mem_map_of_mem _ he,
        by simp [extract_for_hidden_five_fields]⟩
    omega

/-- Witness for C6: the same anchor reached by the structural sweep and by
the carousel path yields two records, the carousel one appended last. -/
theorem carousel_bypasses_dedup_witness :
    (find_clickable_elements id id
      [{ tag_name := "a", raw_text := "Promo", class_attr := "slide-link",
         href_attr := "/promo", id_attr := "p" }]
      [({ tag_name := "a", raw_text := "Promo", class_attr := "slide-link",
          href_attr := "/promo", id_attr := "p" }, DetectionMethod.structural)]
      []).1 =
      (find_regular_clickables id
        [({ tag_name := "a", raw_text := "Promo", class_attr := "slide-link",
            href_attr := "/promo", id_attr := "p" }, DetectionMethod.structural)]
        []).1 ++
        [{ tag_name := "a", raw_text := "Promo", class_attr := "slide-link",
           href_attr := "/promo", id_attr := "p" }].map
          (extract_element_info_for_hidden id) :=
  (carousel_bypasses_dedup id id
    [{ tag_name := "a", raw_text := "Promo", class_attr := "slide-link",
       href_attr := "/promo", id_attr := "p" }]
    [({ tag_name := "a", raw_text := "Promo", class_attr := "slide-link",
        href_attr := "/promo", id_attr := "p" }, DetectionMethod.structural)]
    []
    { tag_name := "a", raw_text := "Promo", class_attr := "slide-link",
      href_attr := "/promo", id_attr := "p" }
    (by decide)).1

end Clickability

